import Mathlib

/-!
Verification of the temporal polar-plot renderer of glowbaby (src/plot.go).

Shallow embedding conventions:
- A Go `time.Time` is its unix-epoch second count (`ℤ`).  The single
  configured local zone (Go `time.Local`) is modelled as a fixed offset
  `off` in seconds east of UTC, carried as an explicit parameter.
- The Go `time` package converts between epoch instants and proleptic
  Gregorian calendar dates.  `civilFromDays` / `daysFromCivil` model that
  bijection with the standard single-division cascade; `daysFromCivil`
  models `time.Date(y, m, d, 0, 0, 0, 0, time.UTC).Unix() / 86400`.
- Go `float64` arithmetic in the renderer is modelled exactly over `ℚ`
  (the renderer only adds, subtracts, multiplies and divides decimal
  constants and small integers).  The trigonometric pixel projection
  `(x, y) = centre + d·(sin θ, -cos θ)` is a function of the polar pair
  `(d, frac)` alone, so the rasterizer is modelled as producing the list
  of polar samples `(d, frac, colour)`; identical samples map to
  identical pixels.
- Go integer division (which truncates) is `Int.tdiv`; `/` on `ℤ` below
  is euclidean division, which agrees with floor division for the
  positive literal divisors used here.
- A Go `panic` is modelled as an `Except.error` carrying a `RenderPanic`
  tag naming the panic site; `log.Fatalf` in the callers aborts the
  process before `Render` runs and is modelled as `Option.none`.
-/

namespace Glowbaby

/-- Civil (proleptic Gregorian) date `(year, month, day)` of a count of
days since the Unix epoch, as computed by the Go `time` package for a
`time.Time` falling on that day.  Uses the standard 400-year /
100-year / 4-year division cascade. -/
def civilFromDays (z0 : ℤ) : ℤ × ℤ × ℤ :=
  let z := z0 + 719468
  let era := z / 146097
  let doe := z - era * 146097
  let c := (4 * doe + 3) / 146097
  let dc := doe - 146097 * c / 4
  let u := (4 * dc + 3) / 1461
  let doy := dc - 1461 * u / 4
  let yoe := 100 * c + u
  let y := yoe + era * 400
  let mp := (5 * doy + 2) / 153
  let d := doy - (153 * mp + 2) / 5 + 1
  let m := mp + (if mp < 10 then 3 else -9)
  (if m ≤ 2 then y + 1 else y, m, d)

/-- Days since the Unix epoch of a civil (proleptic Gregorian) date:
`daysFromCivil y m d = time.Date(y, m, d, 0, 0, 0, 0, time.UTC).Unix() / 86400`. -/
def daysFromCivil (y0 m d : ℤ) : ℤ :=
  let y := y0 - (if m ≤ 2 then 1 else 0)
  let era := y / 400
  let yoe := y - era * 400
  let doy := (153 * (m + (if m > 2 then -3 else 9)) + 2) / 5 + d - 1
  let doe := 365 * yoe + yoe / 4 - yoe / 100 + doy
  era * 146097 + doe - 719468

/-- Arithmetic core of the civil-date roundtrip: the floor-division
characterizations of the conversion cascade force the reconstructed day
count back to `z`.  (The variable `t` is the day-of-month division term,
which telescopes away, so no hypothesis about it is needed.) -/
theorem cascade_eq (z era c d u e t i j k : ℤ)
    (hera : 146097 * era ≤ z + 719468 ∧ z + 719468 < 146097 * era + 146097)
    (hc : 146097 * c ≤ 4 * (z + 719468 - era * 146097) + 3 ∧
      4 * (z + 719468 - era * 146097) + 3 < 146097 * c + 146097)
    (hd : 4 * d ≤ 146097 * c ∧ 146097 * c < 4 * d + 4)
    (hu : 1461 * u ≤ 4 * (z + 719468 - era * 146097 - d) + 3 ∧
      4 * (z + 719468 - era * 146097 - d) + 3 < 1461 * u + 1461)
    (he : 4 * e ≤ 1461 * u ∧ 1461 * u < 4 * e + 4)
    (hi : 400 * i ≤ 100 * c + u + era * 400 ∧ 100 * c + u + era * 400 < 400 * i + 400)
    (hj : 4 * j ≤ 100 * c + u + era * 400 - i * 400 ∧
      100 * c + u + era * 400 - i * 400 < 4 * j + 4)
    (hk : 100 * k ≤ 100 * c + u + era * 400 - i * 400 ∧
      100 * c + u + era * 400 - i * 400 < 100 * k + 100) :
    i * 146097 +
      (365 * (100 * c + u + era * 400 - i * 400) + j - k +
        (t + (z + 719468 - era * 146097 - d - e - t + 1) - 1)) - 719468 = z := by
  have hc3 : 0 ≤ c ∧ c ≤ 3 := by omega
  have hd36524 : d = 36524 * c := by omega
  have hu99 : 0 ≤ u ∧ u ≤ 99 := by omega
  have hie : i = era := by omega
  have hkc : k = c := by omega
  have hje : 4 * j ≤ 100 * c + u ∧ 100 * c + u < 4 * j + 4 := by omega
  omega

/-- The day count of the civil date of a day count is the day count:
the calendar conversion pair is a section/retraction on every epoch day
number. -/
theorem daysFromCivil_civilFromDays (z : ℤ) :
    daysFromCivil (civilFromDays z).1 (civilFromDays z).2.1 (civilFromDays z).2.2 = z := by
  simp only [civilFromDays, daysFromCivil]
  split_ifs <;>
    first
    | omega
    | (simp only [add_sub_cancel_right, sub_zero, add_neg_cancel_right, neg_add_cancel_right]
       exact cascade_eq z _ _ _ _ _ _ _ _ _ (by omega) (by omega) (by omega) (by omega)
         (by omega) (by omega) (by omega) (by omega))

/-- Epoch day number of the local calendar day containing instant `t`
(unix seconds), in the zone `off` seconds east of UTC. -/
def localDays (off t : ℤ) : ℤ :=
  (t + off) / 86400

/-- Go `t.Date()`: the local calendar date of instant `t`. -/
def date (off t : ℤ) : ℤ × ℤ × ℤ :=
  civilFromDays (localDays off t)

/-- Go `t.Clock()`: local wall-clock `(hour, minute, second)` of instant `t`. -/
def Clock (off t : ℤ) : ℤ × ℤ × ℤ :=
  let sod := (t + off) % 86400
  (sod / 3600, sod % 3600 / 60, sod % 60)

/-- One panic of the Go renderer, modelled as an error value:
`indexOutOfRange` is the runtime panic of `pp.segments[len(pp.segments)-1]`
on an empty slice, `startAfterEnd` is the explicit `dayDiff`
`panic("start after end")`. -/
inductive RenderPanic where
  | indexOutOfRange
  | startAfterEnd
deriving DecidableEq

/-- Embedding of `dayDiff` (src/plot.go): the number of calendar days
between the given times, zero when both fall on the same local day.
The source panics when `start.After(end)`; the panic is the `none` case.
Otherwise it takes the calendar dates in the local zone, converts each
to a midnight-UTC instant, and divides the difference of their unix
seconds by 86400 with the Go truncating division (`Int.tdiv`). -/
def dayDiff (off start endt : ℤ) : Option ℤ :=
  if endt < start then none
  else
    let s1 := date off start
    let e1 := date off endt
    some ((86400 * daysFromCivil e1.1 e1.2.1 e1.2.2 -
      86400 * daysFromCivil s1.1 s1.2.1 s1.2.2).tdiv 86400)

/-- Embedding of the day-fraction computation of `splitEpoch`
(src/plot.go): `frac = h/24 + m/(24*60) + s/(24*60*60)` from the local
wall clock. -/
def dayFrac (off t : ℤ) : ℚ :=
  let hms := Clock off t
  (hms.1 : ℚ) / 24 + (hms.2.1 : ℚ) / (24 * 60) + (hms.2.2 : ℚ) / (24 * 60 * 60)

/-- Embedding of `splitEpoch` (src/plot.go): maps an epoch instant to
its `(day, frac)` pair relative to the reference `zero`; `none` models
the `dayDiff` panic when the instant precedes `zero`. -/
def splitEpoch (off zero x : ℤ) : Option (ℤ × ℚ) :=
  (dayDiff off zero x).map (fun day => (day, dayFrac off x))

theorem dayDiff_none_iff (off start endt : ℤ) :
    dayDiff off start endt = none ↔ endt < start := by
  unfold dayDiff
  split_ifs with h <;> simp [h]

/-- On success, `dayDiff` is the difference of local epoch-day numbers:
the calendar roundtrip collapses the midnight-UTC detour. -/
theorem dayDiff_eq (off start endt : ℤ) (h : start ≤ endt) :
    dayDiff off start endt = some (localDays off endt - localDays off start) := by
  unfold dayDiff date
  rw [if_neg (by omega)]
  dsimp only
  have he := daysFromCivil_civilFromDays (localDays off endt)
  have hs := daysFromCivil_civilFromDays (localDays off start)
  rw [he, hs]
  congr 1
  rw [show (86400 : ℤ) * localDays off endt - 86400 * localDays off start =
    86400 * (localDays off endt - localDays off start) by ring]
  exact Int.mul_tdiv_cancel_left _ (by omega)

/-- Go `color.NRGBA`: non-premultiplied RGBA colour with byte channels. -/
structure NRGBA where
  r : ℕ
  g : ℕ
  b : ℕ
  a : ℕ
deriving DecidableEq

/-- Canvas width in pixels (`plotImageWidth`, src/plot.go). -/
def plotImageWidth : ℤ := 1024

/-- Canvas height in pixels (`plotImageHeight`, src/plot.go). -/
def plotImageHeight : ℤ := 768

/-- Embedding of the sleep colour closure of `plotSleep` (src/plot.go):
`hours := (endFrac-startFrac)*24 + (endD-startD)*24`; blue for
`hours >= 5`, green for `hours >= 1.5`, red otherwise. -/
def colSelectSleep (startD endD : ℤ) (startFrac endFrac : ℚ) : NRGBA :=
  let hours := (endFrac - startFrac) * 24 + ((endD - startD : ℤ) : ℚ) * 24
  if 5 ≤ hours then ⟨0, 0, 255, 255⟩
  else if 3 / 2 ≤ hours then ⟨0, 255, 0, 255⟩
  else ⟨255, 0, 0, 255⟩

/-- Embedding of the feed colour closure of `plotFeed` (src/plot.go):
all blue, except red for midnight-spanning feeds. -/
def colSelectFeed (startD endD : ℤ) (startFrac endFrac : ℚ) : NRGBA :=
  if startD = endD then ⟨0, 0, 255, 255⟩
  else ⟨255, 0, 0, 255⟩

/-- Embedding of `polarPlot` (src/plot.go).  Segments are
`(start, end)` unix-epoch pairs; `zero` is the centre of the circle. -/
structure polarPlot where
  segments : List (ℤ × ℤ)
  title : String
  zero : ℤ
  colSelect : ℤ → ℤ → ℚ → ℚ → NRGBA

/-- Embedding of `dayScale` (src/plot.go line 194):
`float64(plotImageHeight) / 2 * 0.9 / float64(maxDay)`.  Note the source
uses the canvas height, which is the smaller canvas dimension. -/
def dayScale (maxDay : ℤ) : ℚ :=
  (plotImageHeight : ℚ) / 2 * (9 / 10) / (maxDay : ℚ)

/-- Embedding of the midnight-crossing adjustment of `Render`
(src/plot.go lines 201-204): if `endFrac < startFrac` the segment
crosses a midnight and `endFrac += float64(endD - startD)`. -/
def adjustEndFrac (startD endD : ℤ) (startFrac endFrac : ℚ) : ℚ :=
  if endFrac < startFrac then endFrac + ((endD - startD : ℤ) : ℚ) else endFrac

/-- Sampling parameters of the rasterization loop
`for step := 0.0; step <= 1.0; step += 0.0001` (src/plot.go line 206),
idealized as the exact rationals `k/10000` for `k = 0, …, 10000`. -/
def steps : List ℚ :=
  (List.range 10001).map (fun k => (k : ℚ) / 10000)

/-- Polar samples of the arc of one segment (src/plot.go lines 206-215):
for each step, radius `d = dayScale*(startD + (endD-startD)*step)` and
angle fraction `frac = startFrac + (endFrac-startFrac)*step`.  The
pixel written is a function of `(d, frac)` only
(`centre + d·(sin(2π·frac), -cos(2π·frac))`, truncated). -/
def arcSamples (ds : ℚ) (startD endD : ℤ) (startFrac endFrac : ℚ) (col : NRGBA) :
    List (ℚ × ℚ × NRGBA) :=
  steps.map (fun step =>
    (ds * ((startD : ℚ) + ((endD - startD : ℤ) : ℚ) * step),
      startFrac + (endFrac - startFrac) * step, col))

/-- The per-segment loop of `Render` (src/plot.go lines 195-216): split
the endpoints of each segment, pick the colour from the unadjusted
fractions, adjust the end fraction for midnight crossings, then sample
the arc.  A `dayDiff` panic on any endpoint aborts the render. -/
def plotSegs (off zero : ℤ) (ds : ℚ) (colSel : ℤ → ℤ → ℚ → ℚ → NRGBA) :
    List (ℤ × ℤ) → Except RenderPanic (List (ℚ × ℚ × NRGBA))
  | [] => .ok []
  | seg :: rest =>
    match splitEpoch off zero seg.1, splitEpoch off zero seg.2 with
    | some sd, some ed =>
      let col := colSel sd.1 ed.1 sd.2 ed.2
      let ef := adjustEndFrac sd.1 ed.1 sd.2 ed.2
      match plotSegs off zero ds colSel rest with
      | .ok out => .ok (arcSamples ds sd.1 ed.1 sd.2 ef col ++ out)
      | .error e => .error e
    | _, _ => .error .startAfterEnd

/-- Embedding of `Render` (src/plot.go lines 170-223).  The title
overlay is best-effort and does not affect the plotted data; the PNG
encoding step is the identity on the sample list for the properties
studied here.  `pp.segments[len(pp.segments)-1]` on an empty slice is
the `indexOutOfRange` panic; `maxDay` is the day offset of the end of the last
segment, and the scale is `dayScale maxDay` (for `maxDay = 0` the
source divides by zero and proceeds with an infinite scale — there is
no error path). -/
def Render (off : ℤ) (pp : polarPlot) : Except RenderPanic (List (ℚ × ℚ × NRGBA)) :=
  match pp.segments.getLast? with
  | none => .error .indexOutOfRange
  | some lastSeg =>
    match splitEpoch off pp.zero lastSeg.2 with
    | none => .error .startAfterEnd
    | some md => plotSegs off pp.zero (dayScale md.1) pp.colSelect pp.segments

/-- Embedding of the tail of `plotSleep` (src/plot.go lines 101-120)
after the database rows are loaded: `log.Fatalf` aborts the process
when no segment was recorded (`none`), otherwise `Render` runs with the
sleep colour policy and the birthday as centre. -/
def plotSleep (off zero : ℤ) (segs : List (ℤ × ℤ)) (title : String) :
    Option (Except RenderPanic (List (ℚ × ℚ × NRGBA))) :=
  if segs.isEmpty then none
  else some (Render off ⟨segs, title, zero, colSelectSleep⟩)

/-- Embedding of the tail of `plotFeed` (src/plot.go lines 153-168):
`log.Fatalf` aborts the process when no feed was recorded, otherwise
`Render` runs with the feed colour policy. -/
def plotFeed (off zero : ℤ) (segs : List (ℤ × ℤ)) (title : String) :
    Option (Except RenderPanic (List (ℚ × ℚ × NRGBA))) :=
  if segs.isEmpty then none
  else some (Render off ⟨segs, title, zero, colSelectFeed⟩)

/-- The segment loop succeeds as soon as every endpoint is at or after
the reference instant. -/
theorem plotSegs_ok (off zero : ℤ) (ds : ℚ) (colSel : ℤ → ℤ → ℚ → ℚ → NRGBA)
    (segs : List (ℤ × ℤ)) (h : ∀ seg ∈ segs, zero ≤ seg.1 ∧ zero ≤ seg.2) :
    ∃ out, plotSegs off zero ds colSel segs = .ok out := by
  induction segs with
  | nil => exact ⟨[], rfl⟩
  | cons seg rest ih =>
    obtain ⟨h1, h2⟩ := h seg (List.mem_cons_self seg rest)
    obtain ⟨out, hout⟩ := ih (fun s hs => h s (List.mem_cons_of_mem seg hs))
    have e1 : splitEpoch off zero seg.1 =
        some (localDays off seg.1 - localDays off zero, dayFrac off seg.1) := by
      unfold splitEpoch
      rw [dayDiff_eq off zero seg.1 h1]
      rfl
    have e2 : splitEpoch off zero seg.2 =
        some (localDays off seg.2 - localDays off zero, dayFrac off seg.2) := by
      unfold splitEpoch
      rw [dayDiff_eq off zero seg.2 h2]
      rfl
    exact ⟨_, by unfold plotSegs; rw [e1, e2, hout]⟩

/-- C6: for every quadruple, the sleep colour policy computes
`hours = (endFrac - startFrac)*24 + (endDay - startDay)*24` and returns
blue when `hours ≥ 5`, green when `1.5 ≤ hours < 5`, red when
`hours < 1.5` (band boundaries inclusive on the lower bound); in
particular durations 5.0h, 4.999h, 1.5h, 1.499h give blue, green,
green, red. -/
theorem sleep_policy_thresholds (startD endD : ℤ) (startFrac endFrac : ℚ) :
    (5 ≤ (endFrac - startFrac) * 24 + ((endD - startD : ℤ) : ℚ) * 24 →
      colSelectSleep startD endD startFrac endFrac = ⟨0, 0, 255, 255⟩) ∧
    (3 / 2 ≤ (endFrac - startFrac) * 24 + ((endD - startD : ℤ) : ℚ) * 24 ∧
        (endFrac - startFrac) * 24 + ((endD - startD : ℤ) : ℚ) * 24 < 5 →
      colSelectSleep startD endD startFrac endFrac = ⟨0, 255, 0, 255⟩) ∧
    ((endFrac - startFrac) * 24 + ((endD - startD : ℤ) : ℚ) * 24 < 3 / 2 →
      colSelectSleep startD endD startFrac endFrac = ⟨255, 0, 0, 255⟩) ∧
    colSelectSleep 0 0 0 (5 / 24) = ⟨0, 0, 255, 255⟩ ∧
    colSelectSleep 0 0 0 (4999 / 24000) = ⟨0, 255, 0, 255⟩ ∧
    colSelectSleep 0 0 0 (1 / 16) = ⟨0, 255, 0, 255⟩ ∧
    colSelectSleep 0 0 0 (1499 / 24000) = ⟨255, 0, 0, 255⟩ := by
  refine ⟨fun h => ?_, fun h => ?_, fun h => ?_, by norm_num [colSelectSleep],
    by norm_num [colSelectSleep], by norm_num [colSelectSleep], by norm_num [colSelectSleep]⟩
  · simp only [colSelectSleep]
    split_ifs <;> first | rfl | (exfalso; linarith)
  · obtain ⟨h1, h2⟩ := h
    simp only [colSelectSleep]
    split_ifs <;> first | rfl | (exfalso; linarith)
  · simp only [colSelectSleep]
    split_ifs <;> first | rfl | (exfalso; linarith)

/-- Witness for C6 at a concrete input: a 6-hour sleep
(`startD = endD = 0`, fractions 0 and 1/4) is at least 5 hours and is
coloured blue. -/
theorem sleep_policy_thresholds_witness :
    (5 : ℚ) ≤ (1 / 4 - 0) * 24 + ((0 - 0 : ℤ) : ℚ) * 24 ∧
    colSelectSleep 0 0 0 (1 / 4) = ⟨0, 0, 255, 255⟩ :=
  ⟨by norm_num, (sleep_policy_thresholds 0 0 0 (1 / 4)).1 (by norm_num)⟩

/-- C7: the feed colour policy returns blue exactly when the segment
lies within one calendar day (`startDay = endDay`) and red otherwise,
and never returns any other colour. -/
theorem feed_policy (startD endD : ℤ) (startFrac endFrac : ℚ) :
    (startD = endD → colSelectFeed startD endD startFrac endFrac = ⟨0, 0, 255, 255⟩) ∧
    (startD ≠ endD → colSelectFeed startD endD startFrac endFrac = ⟨255, 0, 0, 255⟩) ∧
    (colSelectFeed startD endD startFrac endFrac = ⟨0, 0, 255, 255⟩ ∨
      colSelectFeed startD endD startFrac endFrac = ⟨255, 0, 0, 255⟩) := by
  unfold colSelectFeed
  split_ifs with h <;> simp [h]

/-- Witness for C7 at a concrete input: a feed within day 2 is blue,
a feed from day 2 to day 3 is red. -/
theorem feed_policy_witness :
    colSelectFeed 2 2 0 0 = ⟨0, 0, 255, 255⟩ ∧ colSelectFeed 2 3 0 0 = ⟨255, 0, 0, 255⟩ :=
  ⟨(feed_policy 2 2 0 0).1 rfl, (feed_policy 2 3 0 0).2.1 (by decide)⟩

/-- C5: the midnight-crossing resolver adds `endDay - startDay` to the
end fraction exactly when the raw end fraction is below the start
fraction, and leaves it unchanged otherwise; the 22:00 → 02:00
next-day example (exact fractions 11/12 and 1/12 over days 0 and 1)
resolves to the strictly increasing pair `(11/12, 13/12)` — which
rounds to `(0.9167, 1.0833)` at four decimals — not to the decreasing
raw pair `(11/12, 1/12)`. -/
theorem midnight_crossing_resolver (startD endD : ℤ) (startFrac endFrac : ℚ) :
    (endFrac < startFrac →
      adjustEndFrac startD endD startFrac endFrac = endFrac + ((endD - startD : ℤ) : ℚ)) ∧
    (¬ endFrac < startFrac → adjustEndFrac startD endD startFrac endFrac = endFrac) ∧
    splitEpoch 0 0 79200 = some (0, 11 / 12) ∧
    splitEpoch 0 0 93600 = some (1, 1 / 12) ∧
    adjustEndFrac 0 1 (11 / 12) (1 / 12) = 13 / 12 ∧
    (11 / 12 : ℚ) < 13 / 12 ∧ ¬ ((11 / 12 : ℚ) < 1 / 12) ∧
    round ((11 / 12 : ℚ) * 10000) = 9167 ∧ round ((13 / 12 : ℚ) * 10000) = 10833 := by
  refine ⟨fun h => ?_, fun h => ?_, ?_, ?_, ?_, by norm_num, by norm_num, ?_, ?_⟩
  · unfold adjustEndFrac
    rw [if_pos h]
  · unfold adjustEndFrac
    rw [if_neg h]
  · rw [splitEpoch, dayDiff_eq 0 0 79200 (by norm_num)]
    norm_num [localDays, dayFrac, Clock]
  · rw [splitEpoch, dayDiff_eq 0 0 93600 (by norm_num)]
    norm_num [localDays, dayFrac, Clock]
  · norm_num [adjustEndFrac]
  · norm_num [round_eq]
  · norm_num [round_eq]

/-- Witness for C5 at a concrete input: fractions 1/12 < 11/12 over
days 0 → 1 are adjusted to 1/12 + 1, and a non-crossing pair is left
unchanged. -/
theorem midnight_crossing_resolver_witness :
    adjustEndFrac 0 1 (11 / 12) (1 / 12) = 1 / 12 + ((1 - 0 : ℤ) : ℚ) ∧
    adjustEndFrac 0 0 (1 / 12) (11 / 12) = 11 / 12 :=
  ⟨(midnight_crossing_resolver 0 1 (11 / 12) (1 / 12)).1 (by norm_num),
    (midnight_crossing_resolver 0 0 (1 / 12) (11 / 12)).2.1 (by norm_num)⟩

/-- C4: for positive `maxDay`, the radial scale factor equals
`(min(canvasWidth, canvasHeight) / 2) * 0.9 / maxDay` (the source value
`plotImageHeight` is the smaller canvas dimension), and the end of the last
segment — at radius `dayScale maxDay * maxDay` — lies within
`0.9 * min(width, height) / 2`. -/
theorem scale_factor (maxDay : ℤ) (h : 0 < maxDay) :
    dayScale maxDay =
      ((min plotImageWidth plotImageHeight : ℤ) : ℚ) / 2 * (9 / 10) / (maxDay : ℚ) ∧
    dayScale maxDay * (maxDay : ℚ) ≤ 9 / 10 * (((min plotImageWidth plotImageHeight : ℤ) : ℚ) / 2) := by
  have hmin : min plotImageWidth plotImageHeight = plotImageHeight := by decide
  rw [hmin]
  have hne : ((maxDay : ℚ)) ≠ 0 := Int.cast_ne_zero.mpr (by omega)
  constructor
  · rfl
  · rw [dayScale, div_mul_cancel₀ _ hne]
    norm_num [plotImageHeight]

/-- Witness for C4 at a concrete input: `maxDay = 5` is positive, the
scale factor is `min(1024, 768)/2 * 0.9 / 5` and the radius of the last end
is within the 90% half-extent. -/
theorem scale_factor_witness :
    (0 : ℤ) < 5 ∧
    (dayScale 5 = ((min plotImageWidth plotImageHeight : ℤ) : ℚ) / 2 * (9 / 10) / ((5 : ℤ) : ℚ) ∧
      dayScale 5 * ((5 : ℤ) : ℚ) ≤ 9 / 10 * (((min plotImageWidth plotImageHeight : ℤ) : ℚ) / 2)) :=
  ⟨by decide, scale_factor 5 (by decide)⟩

/-- C9: the day fraction equals `(hour + minute/60 + second/3600) / 24`
of the local wall clock, lies in `[0, 1)`, and is 0 exactly at local
midnight instants. -/
theorem dayFrac_spec (off x : ℤ) :
    dayFrac off x =
      (((Clock off x).1 : ℚ) + ((Clock off x).2.1 : ℚ) / 60 + ((Clock off x).2.2 : ℚ) / 3600) / 24 ∧
    0 ≤ dayFrac off x ∧ dayFrac off x < 1 ∧
    ((x + off) % 86400 = 0 → dayFrac off x = 0) := by
  have h0 : 0 ≤ (x + off) % 86400 := Int.emod_nonneg _ (by omega)
  have h1 : (x + off) % 86400 < 86400 := Int.emod_lt_of_pos _ (by omega)
  have hh : 0 ≤ (x + off) % 86400 / 3600 ∧ (x + off) % 86400 / 3600 ≤ 23 := by omega
  have hm : 0 ≤ (x + off) % 86400 % 3600 / 60 ∧ (x + off) % 86400 % 3600 / 60 ≤ 59 := by omega
  have hs : 0 ≤ (x + off) % 86400 % 60 ∧ (x + off) % 86400 % 60 ≤ 59 := by omega
  simp only [dayFrac, Clock]
  have chh : (0 : ℚ) ≤ ((x + off) % 86400 / 3600 : ℤ) ∧ (((x + off) % 86400 / 3600 : ℤ) : ℚ) ≤ 23 :=
    ⟨by exact_mod_cast hh.1, by exact_mod_cast hh.2⟩
  have chm : (0 : ℚ) ≤ ((x + off) % 86400 % 3600 / 60 : ℤ) ∧
      (((x + off) % 86400 % 3600 / 60 : ℤ) : ℚ) ≤ 59 :=
    ⟨by exact_mod_cast hm.1, by exact_mod_cast hm.2⟩
  have chs : (0 : ℚ) ≤ ((x + off) % 86400 % 60 : ℤ) ∧ (((x + off) % 86400 % 60 : ℤ) : ℚ) ≤ 59 :=
    ⟨by exact_mod_cast hs.1, by exact_mod_cast hs.2⟩
  refine ⟨by ring, by linarith [chh.1, chm.1, chs.1], by linarith [chh.2, chm.2, chs.2],
    fun hmid => ?_⟩
  rw [hmid]
  norm_num

/-- Witness for C9 at a concrete input: the instant 86400 (midnight of
the second epoch day, offset 0) has fraction 0, and its wall clock
makes the stated formula literally 0. -/
theorem dayFrac_spec_witness :
    dayFrac 0 86400 =
      (((Clock 0 86400).1 : ℚ) + ((Clock 0 86400).2.1 : ℚ) / 60 +
        ((Clock 0 86400).2.2 : ℚ) / 3600) / 24 ∧
    (86400 + 0) % 86400 = 0 ∧ dayFrac 0 86400 = 0 :=
  ⟨(dayFrac_spec 0 86400).1, by decide, (dayFrac_spec 0 86400).2.2.2 (by decide)⟩

/-- A one-segment plot whose single segment starts at the reference
instant (epoch 0) and ends the same calendar day, one hour later: its
maximum day offset is 0. -/
def ppZeroSpan : polarPlot :=
  { segments := [(0, 3600)], title := "", zero := 0, colSelect := colSelectSleep }

/-- A plot with no segments at all. -/
def ppEmpty : polarPlot :=
  { segments := [], title := "", zero := 0, colSelect := colSelectSleep }

/-- C1 counterexample: the last segment of `ppZeroSpan` ends on the
calendar date of the reference (day offset 0), yet `Render` does not report
any error — it proceeds and returns a result.  The source has no
`DegenerateScaleError`: line 194 divides by `float64(maxDay)`
unconditionally. -/
theorem render_degenerate_scale_counterexample :
    dayDiff 0 ppZeroSpan.zero 3600 = some 0 ∧ (Render 0 ppZeroSpan).isOk = true :=
  ⟨by decide, rfl⟩

/-- C1 amended: when the day offset of the last segment is 0 the render does
not fail; provided every endpoint is at or after the reference instant
it completes and returns its samples (in Go the `0.9·height/2 / 0`
division yields `+Inf`, and rendering proceeds with that scale). -/
theorem render_proceeds_on_degenerate_scale (off : ℤ) (pp : polarPlot) (ls : ℤ × ℤ)
    (hlast : pp.segments.getLast? = some ls)
    (hmax : splitEpoch off pp.zero ls.2 = some (0, dayFrac off ls.2))
    (hall : ∀ seg ∈ pp.segments, pp.zero ≤ seg.1 ∧ pp.zero ≤ seg.2) :
    ∃ out, Render off pp = Except.ok out := by
  obtain ⟨out, hout⟩ := plotSegs_ok off pp.zero (dayScale 0) pp.colSelect pp.segments hall
  refine ⟨out, ?_⟩
  unfold Render
  rw [hlast]
  dsimp only
  rw [hmax]
  exact hout

/-- Witness for C1 amended at the concrete input `ppZeroSpan`. -/
theorem render_proceeds_on_degenerate_scale_witness :
    ppZeroSpan.segments.getLast? = some (0, 3600) ∧
    splitEpoch 0 ppZeroSpan.zero 3600 = some (0, dayFrac 0 3600) ∧
    (∀ seg ∈ ppZeroSpan.segments, ppZeroSpan.zero ≤ seg.1 ∧ ppZeroSpan.zero ≤ seg.2) ∧
    ∃ out, Render 0 ppZeroSpan = Except.ok out := by
  have hmax : splitEpoch 0 ppZeroSpan.zero 3600 = some (0, dayFrac 0 3600) := by
    rw [show ppZeroSpan.zero = 0 from rfl, splitEpoch, dayDiff_eq 0 0 3600 (by norm_num)]
    norm_num [localDays]
  exact ⟨rfl, hmax, by decide,
    render_proceeds_on_degenerate_scale 0 ppZeroSpan (0, 3600) rfl hmax (by decide)⟩

/-- C2 counterexample: on the empty segment list the renderer does not
return a structured empty-input error — it hits the index-out-of-range
panic of `pp.segments[len(pp.segments)-1]` (line 193); the defence
against empty input lives in the callers (`plotSleep`/`plotFeed`),
which abort the process via `log.Fatalf` before `Render` runs. -/
theorem render_empty_counterexample :
    Render 0 ppEmpty = Except.error RenderPanic.indexOutOfRange ∧
    plotSleep 0 0 [] "" = none ∧ plotFeed 0 0 [] "" = none :=
  ⟨rfl, rfl, rfl⟩

/-- C2 amended: the renderer does fail before any rasterization on the
empty list, but with the index-out-of-range panic rather than a
structured `EmptyInputError`, and it is the callers — not the renderer
— that guard against empty input (by killing the process). -/
theorem render_empty_input (off zero : ℤ) (title : String) (pp : polarPlot)
    (h : pp.segments = []) :
    Render off pp = Except.error RenderPanic.indexOutOfRange ∧
    plotSleep off zero [] title = none ∧ plotFeed off zero [] title = none := by
  refine ⟨?_, rfl, rfl⟩
  unfold Render
  rw [h]
  rfl

/-- Witness for C2 amended at the concrete input `ppEmpty`. -/
theorem render_empty_input_witness :
    ppEmpty.segments = [] ∧ Render 5 ppEmpty = Except.error RenderPanic.indexOutOfRange :=
  ⟨rfl, (render_empty_input 5 0 "" ppEmpty rfl).1⟩

/-- C3 counterexample: with the reference at noon (instant 43200) and
the instant at 06:00 of the same calendar day (21600), the instant does
not precede the calendar date of the reference, yet the mapping fails
(`dayDiff` panics because `start.After(end)` compares instants, not
dates). -/
theorem splitEpoch_same_date_failure :
    splitEpoch 0 43200 21600 = none ∧ date 0 21600 = date 0 43200 :=
  ⟨rfl, by decide⟩

/-- C3 amended: the temporal mapping of an instant fails exactly when
the instant strictly precedes the reference instant itself (not its
calendar date); for every instant at or after the reference it succeeds
with a day offset and day fraction.  When the reference lies at local
midnight, preceding the reference instant and preceding its calendar
day coincide. -/
theorem splitEpoch_fails_iff (off zero x : ℤ) :
    (splitEpoch off zero x = none ↔ x < zero) ∧
    (zero ≤ x → splitEpoch off zero x =
      some (localDays off x - localDays off zero, dayFrac off x)) ∧
    ((zero + off) % 86400 = 0 → (x < zero ↔ localDays off x < localDays off zero)) := by
  refine ⟨?_, fun h => ?_, fun h => ?_⟩
  · rw [splitEpoch, Option.map_eq_none', dayDiff_none_iff]
  · rw [splitEpoch, dayDiff_eq off zero x h]
    rfl
  · unfold localDays
    omega

/-- Witness for C3 amended at a concrete input: instant 21600 precedes
reference 43200, so the mapping fails there; instant 90000 (≥ 43200)
succeeds with day offset 1. -/
theorem splitEpoch_fails_iff_witness :
    (splitEpoch 0 43200 21600 = none ↔ (21600 : ℤ) < 43200) ∧
    ((43200 : ℤ) ≤ 90000 ∧ splitEpoch 0 43200 90000 =
      some (localDays 0 90000 - localDays 0 43200, dayFrac 0 90000)) :=
  ⟨(splitEpoch_fails_iff 0 43200 21600).1,
    by norm_num, (splitEpoch_fails_iff 0 43200 90000).2.1 (by norm_num)⟩

/-- C8: an instant on the same local calendar date as the reference
(and not before it) has day offset exactly 0, and the day offset is
non-decreasing as the instant advances. -/
theorem dayDiff_same_date_and_monotone (off zero x y : ℤ) :
    (zero ≤ x → date off x = date off zero → dayDiff off zero x = some 0) ∧
    (zero ≤ x → x ≤ y → ∀ dx dy, dayDiff off zero x = some dx →
      dayDiff off zero y = some dy → dx ≤ dy) := by
  constructor
  · intro hzx hdate
    unfold dayDiff
    rw [if_neg (by omega)]
    dsimp only
    rw [hdate, sub_self, Int.zero_tdiv]
  · intro hzx hxy dx dy hdx hdy
    rw [dayDiff_eq off zero x hzx] at hdx
    rw [dayDiff_eq off zero y (by omega)] at hdy
    have h1 : localDays off x - localDays off zero = dx := Option.some.inj hdx
    have h2 : localDays off y - localDays off zero = dy := Option.some.inj hdy
    have h3 : localDays off x ≤ localDays off y := by
      unfold localDays
      omega
    omega

/-- Witness for C8 at concrete inputs: 12:00 of the reference day
(reference 01:00) has day offset 0, and offsets 0 ≤ 1 for the advance
from 12:00 of day 0 to 01:00 of day 1. -/
theorem dayDiff_same_date_and_monotone_witness :
    dayDiff 0 3600 43200 = some 0 ∧ (0 : ℤ) ≤ 1 :=
  ⟨(dayDiff_same_date_and_monotone 0 3600 43200 43200).1 (by norm_num) (by decide),
    (dayDiff_same_date_and_monotone 0 3600 43200 90000).2 (by norm_num) (by norm_num)
      0 1 (by decide) (by decide)⟩

/-- C10: a zero-duration segment at or after the reference is accepted
without error: the render completes, the sampling loop runs, and every
sample of that segment carries the same radius, fraction and colour —
a single plotted point. -/
theorem render_zero_duration (off zero s : ℤ) (title : String)
    (colSel : ℤ → ℤ → ℚ → ℚ → NRGBA) (h : zero ≤ s) :
    ∃ day frac,
      splitEpoch off zero s = some (day, frac) ∧
      Render off ⟨[(s, s)], title, zero, colSel⟩ =
        Except.ok (arcSamples (dayScale day) day day frac frac (colSel day day frac frac)) ∧
      ∀ q ∈ arcSamples (dayScale day) day day frac frac (colSel day day frac frac),
        q = (dayScale day * (day : ℚ), frac, colSel day day frac frac) := by
  refine ⟨localDays off s - localDays off zero, dayFrac off s, ?_, ?_, ?_⟩
  · rw [splitEpoch, dayDiff_eq off zero s h]
    rfl
  · have hsplit : splitEpoch off zero s =
        some (localDays off s - localDays off zero, dayFrac off s) := by
      rw [splitEpoch, dayDiff_eq off zero s h]
      rfl
    unfold Render
    rw [show ([((s : ℤ), (s : ℤ))] : List (ℤ × ℤ)).getLast? = some (s, s) from rfl]
    dsimp only
    rw [hsplit]
    dsimp only
    unfold plotSegs
    rw [hsplit]
    dsimp only
    unfold plotSegs
    rw [show adjustEndFrac (localDays off s - localDays off zero)
        (localDays off s - localDays off zero) (dayFrac off s) (dayFrac off s) =
        dayFrac off s from by rw [adjustEndFrac, if_neg (lt_irrefl _)]]
    dsimp only
    rw [List.append_nil]
  · intro q hq
    simp only [arcSamples, List.mem_map] at hq
    obtain ⟨st, hst, rfl⟩ := hq
    simp only [Prod.mk.injEq]
    refine ⟨by push_cast; ring, by ring, trivial⟩

/-- Witness for C10 at a concrete input: the zero-duration segment at
instant 90000 (reference 0). -/
theorem render_zero_duration_witness :
    (0 : ℤ) ≤ 90000 ∧
    ∃ day frac,
      splitEpoch 0 0 90000 = some (day, frac) ∧
      Render 0 ⟨[(90000, 90000)], "", 0, colSelectSleep⟩ =
        Except.ok (arcSamples (dayScale day) day day frac frac
          (colSelectSleep day day frac frac)) ∧
      ∀ q ∈ arcSamples (dayScale day) day day frac frac (colSelectSleep day day frac frac),
        q = (dayScale day * (day : ℚ), frac, colSelectSleep day day frac frac) :=
  ⟨by norm_num, render_zero_duration 0 0 90000 "" colSelectSleep (by norm_num)⟩

end Glowbaby
